import Mathlib

/-
Verification development for the startup/shutdown bootstrap subsystem
(`src/openage/init.cpp`) of the openage client.

The C++ source is shallowly embedded:
* the player-color palette line parser (`player_color_line::fill`, driven by
  `sscanf("%u=%u,%u,%u,%u", ...)`) becomes a total Lean parser returning
  `Option`;
* the conversion loop filling the `playercolors` float staging buffer becomes
  a pure function producing a list of rationals;
* the terrain grid and `set_tile` (declared in the engine, used here) are
  modelled from the specification as explicit state passing;
* `init()` and `destroy()` are modelled as event traces: concrete lists of
  the externally visible actions they perform, in source order.

Machine floats are modelled by exact rationals; machine `unsigned int`
arithmetic by `Nat` reduced modulo 2^32 where the source can overflow.
-/

namespace Openage

/-! ### Player color palette: parsing and conversion

`init.cpp` lines 80–114.  `player_color_line` carries the parsed fields
`idx, r, g, b, a` (all C `unsigned int`).  `fill` succeeds iff
`sscanf(by_line, "%u=%u,%u,%u,%u", ...)` returns 5. -/

structure player_color_line where
  idx : Nat
  r : Nat
  g : Nat
  b : Nat
  a : Nat
deriving DecidableEq

/-- Model of one `%u` conversion of `sscanf` on the palette lines: consume a
non-empty run of decimal digits from the front, yielding its value as a C
`unsigned int` (reduced mod 2^32) and the unconsumed rest; fail when no digit
is present. -/
def scanUInt (cs : List Char) : Option (Nat × List Char) :=
  let ds := cs.takeWhile (fun c => c.isDigit)
  if ds.isEmpty then none
  else some ((ds.foldl (fun n c => 10 * n + (c.toNat - 48)) 0) % 4294967296,
             cs.drop ds.length)

/-- Model of a literal character match in an `sscanf` format string. -/
def expectChar (c : Char) : List Char → Option (List Char)
  | [] => none
  | x :: rest => if x = c then some rest else none

/-- `player_color_line::fill` (init.cpp:83–96): parse `"%u=%u,%u,%u,%u"`.
`some` models return value `0`, `none` models `-1`. -/
def player_color_line.fill (s : String) : Option player_color_line := do
  let (idx, rest) ← scanUInt s.toList
  let rest ← expectChar '=' rest
  let (r, rest) ← scanUInt rest
  let rest ← expectChar ',' rest
  let (g, rest) ← scanUInt rest
  let rest ← expectChar ',' rest
  let (b, rest) ← scanUInt rest
  let rest ← expectChar ',' rest
  let (a, _) ← scanUInt rest
  pure { idx := idx, r := r, g := g, b := b, a := a }

/-- Modelled from the spec: the tabular record loader `read_csv_file`
(engine/util/file, not part of this repository snapshot) parses each line
with `fill`; a malformed line fails the whole load. -/
def read_player_colors (ls : List String) : Option (List player_color_line) :=
  ls.mapM player_color_line.fill

/-- The `playercolors` staging buffer built by init.cpp:107–114: for the
`i`-th loaded line, slots `4*i .. 4*i+3` receive `r/255, g/255, b/255, a/255`.
The slot is named by the loop counter `i`, i.e. the line's position in the
loaded table. -/
def playercolors (lines : List player_color_line) : List ℚ :=
  lines.flatMap (fun l =>
    [(l.r : ℚ) / 255, (l.g : ℚ) / 255, (l.b : ℚ) / 255, (l.a : ℚ) / 255])

/-- The whole load-and-convert path for the player-color palette: parse all
lines, then build the staging buffer. -/
def load_convert_player_colors (ls : List String) : Option (List ℚ) :=
  (read_player_colors ls).map playercolors

/-- The per-channel normalization map `c ↦ c / 255.0` applied by
init.cpp:110–113 to each integer channel in `[0,255]`. -/
def pcNormalize (c : Fin 256) : ℚ :=
  (c.val : ℚ) / 255

/-- Number of floats in the staging buffer: `new GLfloat[pcolor_count*4]`
(init.cpp:107). -/
def pcBufferLen (pcolor_count : Nat) : Nat := pcolor_count * 4

/-- Number of vec4 entries `glUniform4fv` is told to upload (init.cpp:165):
the constant `64`, independent of `pcolor_count`. -/
def pcUploadVec4Count : Nat := 64

/-- Number of floats `glUniform4fv(loc, 64, buf)` reads from the buffer. -/
def pcUploadFloatCount : Nat := pcUploadVec4Count * 4

/-! ### Blend priority ordering

`terrain_priority_list` (init.cpp:26) is filled by the `Terrain` constructor,
which lives in the engine and is not part of this repository snapshot; it is
modelled from the spec (§4.2). -/

/-- Descending-priority comparison on `(id, blend_priority)` pairs. -/
def prioGE (x y : Nat × Int) : Prop := y.2 ≤ x.2

instance : DecidableRel prioGE :=
  fun x y => inferInstanceAs (Decidable (y.2 ≤ x.2))

instance : IsTotal (Nat × Int) prioGE :=
  ⟨fun x y => le_total y.2 x.2⟩

instance : IsTrans (Nat × Int) prioGE :=
  ⟨fun _ _ _ h1 h2 => le_trans h2 h1⟩

/-- Modelled from the spec: the `Terrain` constructor (engine code absent
from this snapshot) produces `terrain_priority_list`, the terrain-type ids
stably sorted by descending `blend_priority`; equal priorities keep table
order.  Input: the table of blend priorities, indexed by terrain-type id. -/
def terrain_priority_list (prios : List Int) : List Nat :=
  ((prios.enum).insertionSort prioGE).map Prod.fst

/-- The blend priority of a terrain-type id, read from the loaded table. -/
def prioOf (prios : List Int) (id : Nat) : Int :=
  prios.getD id 0

/-! ### Terrain grid and `set_tile`

The `Terrain` class lives in the engine and is absent from this snapshot;
grid and `set_tile` are modelled from the spec (§4.1): a square grid of side
`size`, a cell per `(ne, se)` coordinate pair, and `set_tile` failing with
`InvalidTerrainId` when the id is outside `[0, terrain_type_count)`. -/

inductive TerrainError
  | InvalidTerrainId
deriving DecidableEq

structure Terrain where
  size : Nat
  terrain_type_count : Nat
  tiles : List (Option Nat)
deriving DecidableEq

/-- Modelled from the spec: `Terrain::set_tile(pos, id)` fails with
`InvalidTerrainId` (first component) when `id` is outside
`[0, terrain_type_count)` and then leaves the grid unchanged; otherwise it
stores the id at the cell for `(ne, se)`. -/
def Terrain.set_tile (t : Terrain) (ne se : Nat) (id : Int) :
    Option TerrainError × Terrain :=
  if id < 0 ∨ (t.terrain_type_count : Int) ≤ id then
    (some TerrainError.InvalidTerrainId, t)
  else
    (none, { t with tiles := t.tiles.set (ne * t.size + se) (some id.toNat) })

/-- The hardcoded 20×20 tile-id matrix `terrain_data` (init.cpp:28–49). -/
def terrain_data : List (List Nat) :=
  [[ 7,  7,  7,  7,  7,  7,  7,  7,  7,  7,  7,  7,  7,  7,  7,  7,  7,  7,  7,  7],
   [ 7,  7,  7,  7,  7,  7,  7,  7,  7,  7,  7,  7,  7,  7,  7,  7,  7,  7,  7,  7],
   [ 7,  7,  7,  7,  7,  7,  7,  7,  7,  7,  7,  7,  7,  7,  7,  7,  7,  7,  7,  7],
   [ 7,  7,  7,  7,  7,  7,  7,  7,  7,  7,  7,  7, 11, 11, 11,  7,  7,  7,  7,  7],
   [ 7,  7,  7,  7,  7,  7,  7,  7,  7,  7,  7,  7, 11, 11, 11, 11, 11,  7,  7,  7],
   [ 7,  7, 20, 20, 20,  7,  7,  7,  7,  7,  7,  7, 11, 11, 11, 11, 11, 11,  7,  7],
   [ 7,  7, 20,  7,  7, 20, 20,  7,  7,  7,  7,  7, 11, 11, 11, 11, 11,  7,  7,  7],
   [ 7,  7, 20,  7,  7,  7,  7,  7,  7,  7,  7,  7, 11, 11, 11,  7,  7,  7,  7,  7],
   [ 7, 20, 20, 20,  7,  7,  7,  7,  7,  7,  7,  7,  7,  7,  7,  7,  7,  7,  7,  7],
   [ 7,  7, 20,  7,  7,  7,  7,  7,  7,  7,  7,  7,  7,  7,  7,  7,  7,  7,  7,  7],
   [ 7,  7, 20,  7,  7,  7,  9,  9,  7,  7,  7,  7,  7,  7,  7,  7,  7,  7,  7,  7],
   [ 7,  7,  7,  7,  7,  7,  9,  9,  7,  7,  7,  7,  7,  7,  7,  7,  7,  7,  7,  7],
   [ 7,  7,  7,  7, 13,  7,  9,  7,  7, 12, 12,  7,  7,  7,  7,  7,  7,  7,  7,  7],
   [ 7,  7,  7,  7, 13,  9,  9,  7, 12,  7,  7,  7,  7,  7,  7,  7,  7,  7,  7,  7],
   [ 7,  7,  7,  7, 13,  7,  7,  7, 12,  7,  7,  7,  7, 17, 17, 17,  7,  7,  7,  7],
   [ 7,  7,  7,  7, 13,  7,  7,  7, 12,  7,  7,  7,  7, 18, 18, 18,  7,  7,  7,  7],
   [ 7,  7, 12, 12, 12, 12, 12, 12, 12,  7,  7,  7,  7, 19, 19, 19,  7,  7,  7,  7],
   [ 7,  7,  7,  7,  7,  7,  7,  7,  7,  7,  7,  7,  7,  3,  3,  3,  7,  7,  7,  7],
   [ 7,  7,  7,  7,  7,  7,  7,  7,  7,  7,  7,  7,  7,  3,  3,  3,  3, 14, 14,  7],
   [ 7,  7,  7,  7,  7,  7,  7,  7,  7,  7,  7,  7,  7,  7,  7,  3,  3,  7,  7,  7]]

/-- `terrain_data[ne][se]`. -/
def tdata (ne se : Nat) : Nat :=
  (terrain_data.getD ne []).getD se 0

/-- The terrain-type ids occurring in `terrain_data`. -/
def terrainIdSet : List Nat := [3, 7, 9, 11, 12, 13, 14, 17, 18, 19, 20]

/-- The `(ne, se)` cell sequence of the doubly nested `set_tile` loop
(init.cpp:71–77): `ne` outer, `se` inner, both `0 .. size-1`. -/
def rowMajorCells (n : Nat) : List (Nat × Nat) :=
  (List.range n).flatMap (fun ne => (List.range n).map (fun se => (ne, se)))

/-- The terrain freshly built by `new Terrain(20, ttype_count, ...)`
(init.cpp:66): a 20×20 grid with no tile set yet. -/
def initialTerrain (ttype_count : Nat) : Terrain :=
  { size := 20, terrain_type_count := ttype_count,
    tiles := List.replicate 400 none }

/-- The `set_tile` sweep of init.cpp:71–77 over the fixed matrix,
short-circuiting on the first failure (a failed `set_tile` raises a fatal
error in the engine). -/
def sweep (t : Terrain) : Except TerrainError Terrain :=
  (rowMajorCells 20).foldlM (fun acc c =>
    match acc.set_tile c.1 c.2 (tdata c.1 c.2 : Int) with
    | (some e, _) => Except.error e
    | (none, t2) => Except.ok t2) t

/-- The grid contents after the full sweep: cell `(ne, se)` (flat index
`ne*20+se`) holds `terrain_data[ne][se]`. -/
def finalTiles : List (Option Nat) :=
  (List.range 400).map (fun k => some (tdata (k / 20) (k % 20)))

/-! ### Event traces of `init()` and `destroy()`

`init()` (init.cpp:51–195) and `destroy()` (init.cpp:197–213) are straight-line
code; their externally visible actions are embedded as concrete event lists in
source order. -/

/-- The three shader programs created by `init()`. -/
inductive ProgId
  | texture
  | teamcolor
  | alphamask
deriving DecidableEq, Fintype

/-- The five shader objects compiled by `init()` (init.cpp:120–138). -/
inductive ShaderId
  | plaintexture_vert
  | plaintexture_frag
  | teamcolor_frag
  | alphamask_vert
  | alphamask_frag
deriving DecidableEq, Fintype

inductive GLStage
  | vertex
  | fragment
deriving DecidableEq

/-- One observable action of `init()`.  Float constants are carried as
(numerator, denominator) pairs of the literals in the source. -/
inductive Ev
  | newTexture (path : String)
  | readCSV (path : String)
  | newTerrain
  | setTile (ne se id : Nat)
  | convertColors
  | readShaderFile (path : String)
  | newShader (s : ShaderId) (stage : GLStage)
  | newProgram (p : ProgId) (vert frag : ShaderId)
  | linkProgram (p : ProgId)
  | getUniformId (p : ProgId) (name : String)
  | getAttributeId (p : ProgId) (name : String)
  | useProgram (p : ProgId)
  | stopUsing (p : ProgId)
  | uniform1i (owner : ProgId) (name : String) (v : Int)
  | uniform1f (owner : ProgId) (name : String) (num den : Nat)
  | uniform4fv (owner : ProgId) (name : String) (count : Nat)
  | deleteShader (s : ShaderId)
  | registerCallback (name : String)
deriving DecidableEq

/-- The rational value of a float literal `num.0/den.0` of the source. -/
def floatLit (num den : Nat) : ℚ := (num : ℚ) / den

/-- The event trace of `init()` (init.cpp:51–195), in source order. -/
def initTrace : List Ev :=
  [Ev.newTexture "gaben.png",
   Ev.newTexture "age/raw/Data/graphics.drs/3836.slp.png",
   Ev.readCSV "age/processed/terrain_meta.docx",
   Ev.readCSV "age/processed/blending_meta.docx",
   Ev.newTerrain] ++
  (rowMajorCells 20).map (fun c => Ev.setTile c.1 c.2 (tdata c.1 c.2)) ++
  [Ev.readCSV "age/processed/player_color_palette.pal",
   Ev.convertColors,
   Ev.readShaderFile "shaders/maptexture.vert.glsl",
   Ev.newShader ShaderId.plaintexture_vert GLStage.vertex,
   Ev.readShaderFile "shaders/maptexture.frag.glsl",
   Ev.newShader ShaderId.plaintexture_frag GLStage.fragment,
   Ev.readShaderFile "shaders/teamcolors.frag.glsl",
   Ev.newShader ShaderId.teamcolor_frag GLStage.fragment,
   Ev.readShaderFile "shaders/alphamask.vert.glsl",
   Ev.newShader ShaderId.alphamask_vert GLStage.vertex,
   Ev.readShaderFile "shaders/alphamask.frag.glsl",
   Ev.newShader ShaderId.alphamask_frag GLStage.fragment,
   Ev.newProgram ProgId.texture ShaderId.plaintexture_vert ShaderId.plaintexture_frag,
   Ev.linkProgram ProgId.texture,
   Ev.getUniformId ProgId.texture "texture",
   Ev.getAttributeId ProgId.texture "tex_coordinates",
   Ev.useProgram ProgId.texture,
   Ev.uniform1i ProgId.texture "texture" 0,
   Ev.stopUsing ProgId.texture,
   Ev.newProgram ProgId.teamcolor ShaderId.plaintexture_vert ShaderId.teamcolor_frag,
   Ev.linkProgram ProgId.teamcolor,
   Ev.getUniformId ProgId.teamcolor "texture",
   Ev.getAttributeId ProgId.teamcolor "tex_coordinates",
   Ev.getUniformId ProgId.teamcolor "player_number",
   Ev.getUniformId ProgId.teamcolor "alpha_marker",
   Ev.getUniformId ProgId.teamcolor "player_color",
   Ev.useProgram ProgId.teamcolor,
   Ev.uniform1i ProgId.teamcolor "texture" 0,
   Ev.uniform1f ProgId.teamcolor "alpha_marker" 254 255,
   Ev.uniform4fv ProgId.teamcolor "player_color" 64,
   Ev.stopUsing ProgId.teamcolor,
   Ev.newProgram ProgId.alphamask ShaderId.alphamask_vert ShaderId.alphamask_frag,
   Ev.linkProgram ProgId.alphamask,
   Ev.getAttributeId ProgId.alphamask "base_tex_coordinates",
   Ev.getAttributeId ProgId.alphamask "mask_tex_coordinates",
   Ev.getUniformId ProgId.alphamask "show_mask",
   Ev.getUniformId ProgId.alphamask "base_texture",
   Ev.getUniformId ProgId.alphamask "mask_texture",
   Ev.useProgram ProgId.alphamask,
   Ev.uniform1i ProgId.alphamask "base_texture" 0,
   Ev.uniform1i ProgId.alphamask "mask_texture" 1,
   Ev.stopUsing ProgId.alphamask,
   Ev.deleteShader ShaderId.plaintexture_vert,
   Ev.deleteShader ShaderId.plaintexture_frag,
   Ev.deleteShader ShaderId.teamcolor_frag,
   Ev.deleteShader ShaderId.alphamask_vert,
   Ev.deleteShader ShaderId.alphamask_frag,
   Ev.registerCallback "input_handler",
   Ev.registerCallback "on_engine_tick",
   Ev.registerCallback "draw_method",
   Ev.registerCallback "hud_draw_method"]

/-- The initialization phase an event belongs to: 0 standalone textures,
1 terrain/blend metadata load, 2 terrain grid build, 3 player-color table
load/convert, 4 shader assembly, 5 callback registration. -/
def phase : Ev → Nat
  | Ev.newTexture _ => 0
  | Ev.readCSV p => if p = "age/processed/player_color_palette.pal" then 3 else 1
  | Ev.newTerrain => 2
  | Ev.setTile _ _ _ => 2
  | Ev.convertColors => 3
  | Ev.readShaderFile _ => 4
  | Ev.newShader _ _ => 4
  | Ev.newProgram _ _ _ => 4
  | Ev.linkProgram _ => 4
  | Ev.getUniformId _ _ => 4
  | Ev.getAttributeId _ _ => 4
  | Ev.useProgram _ => 4
  | Ev.stopUsing _ => 4
  | Ev.uniform1i _ _ _ => 4
  | Ev.uniform1f _ _ _ _ => 4
  | Ev.uniform4fv _ _ _ => 4
  | Ev.deleteShader _ => 4
  | Ev.registerCallback _ => 5

/-- The `(program, vertex shader, fragment shader)` triples of the
`new shader::Program(...)` calls in a trace. -/
def progDefs (tr : List Ev) : List (ProgId × ShaderId × ShaderId) :=
  tr.filterMap (fun e =>
    match e with
    | Ev.newProgram p v f => some (p, v, f)
    | _ => none)

/-- Whether a program references a shader object, per the trace's
`newProgram` events. -/
def references (tr : List Ev) (p : ProgId) (s : ShaderId) : Prop :=
  ∃ d ∈ progDefs tr, d.1 = p ∧ (d.2.1 = s ∨ d.2.2 = s)

instance (tr : List Ev) (p : ProgId) (s : ShaderId) :
    Decidable (references tr p s) := by
  unfold references; infer_instance

/-- How one event changes the active GL program: `use()` activates,
`stopusing()` deactivates. -/
def updActive (acc : Option ProgId) (e : Ev) : Option ProgId :=
  match e with
  | Ev.useProgram p => some p
  | Ev.stopUsing _ => none
  | _ => acc

/-- The active GL program after a list of events. -/
def activeProg (tr : List Ev) : Option ProgId :=
  tr.foldl updActive none

/-- The owner of a constant-uniform seeding event, if it is one. -/
def uniformOwner : Ev → Option ProgId
  | Ev.uniform1i p _ _ => some p
  | Ev.uniform1f p _ _ _ => some p
  | Ev.uniform4fv p _ _ => some p
  | _ => none

/-- One observable action of `destroy()`. -/
inductive DEv
  | deleteTexture (name : String)
  | deleteProgram (p : ProgId)
  | deleteTerrainTexture (i : Nat)
  | deleteBlendTexture (i : Nat)
  | freePriorityList
deriving DecidableEq

/-- `blend_mode_count` (init.cpp:24), "hardcoded for now". -/
def blend_mode_count : Nat := 9

/-- The event trace of `destroy()` (init.cpp:197–213), in source order.
`terrain_texture_count` is the global snapshot counter recorded when the
engine loaded the terrain textures (engine code absent from this snapshot);
the blend loop bound is the global `blend_mode_count`.  The metadata table
sizes read in `init()` (`ttype_count`, `bmode_count`) are locals of `init`
and are not visible to `destroy()` at all. -/
def destroyTrace (terrain_texture_count : Nat) : List DEv :=
  [DEv.deleteTexture "gaben",
   DEv.deleteTexture "university",
   DEv.deleteProgram ProgId.texture,
   DEv.deleteProgram ProgId.teamcolor,
   DEv.deleteProgram ProgId.alphamask] ++
  (List.range terrain_texture_count).map DEv.deleteTerrainTexture ++
  (List.range blend_mode_count).map DEv.deleteBlendTexture ++
  [DEv.freePriorityList]

/-- The teardown phase of a destroy event: 0 standalone textures, 1 shader
programs, 2 terrain-texture array, 3 blend-texture array, 4 priority list. -/
def dphase : DEv → Nat
  | DEv.deleteTexture _ => 0
  | DEv.deleteProgram _ => 1
  | DEv.deleteTerrainTexture _ => 2
  | DEv.deleteBlendTexture _ => 3
  | DEv.freePriorityList => 4

/-- Recognizer for terrain-texture releases. -/
def isTerrainTexRelease : DEv → Bool
  | DEv.deleteTerrainTexture _ => true
  | _ => false

/-- Recognizer for blend-texture releases. -/
def isBlendTexRelease : DEv → Bool
  | DEv.deleteBlendTexture _ => true
  | _ => false

/-- Recognizer for shader-program releases. -/
def isProgramRelease : DEv → Bool
  | DEv.deleteProgram _ => true
  | _ => false

/-- Recognizer for callback registrations. -/
def isRegisterCallback : Ev → Bool
  | Ev.registerCallback _ => true
  | _ => false

/-- Linear-time check that a list of phase numbers never decreases. -/
def monoChk : List Nat → Bool
  | [] => true
  | [_] => true
  | a :: b :: rest => a ≤ b && monoChk (b :: rest)

/-- Linear-time check that every constant-uniform seeding event happens while
its owning program is the active one, walking the trace with the running
active program. -/
def seedChk (act : Option ProgId) : List Ev → Bool
  | [] => true
  | e :: rest =>
    (match uniformOwner e with
     | some p => decide (act = some p)
     | none => true) && seedChk (updActive act e) rest

/-- The tile-buffer effect of one successful `set_tile` call on a grid of
side `size`. -/
def tileStep (size : Nat) (ts : List (Option Nat)) (c : Nat × Nat) :
    List (Option Nat) :=
  ts.set (c.1 * size + c.2) (some (tdata c.1 c.2))

/-! ## Helper lemmas -/

set_option maxRecDepth 1000000
set_option maxHeartbeats 1000000

/-- A list whose `monoChk` holds is pairwise nondecreasing. -/
theorem monoChk_pairwise : ∀ {l : List Nat}, monoChk l = true → l.Pairwise (· ≤ ·)
  | [], _ => List.Pairwise.nil
  | [_], _ => by simp
  | a :: b :: rest, h => by
    have hab : a ≤ b := by
      have hh := h
      simp [monoChk] at hh
      exact hh.1
    have hrest : monoChk (b :: rest) = true := by
      simp [monoChk] at h
      simpa using h.2
    have ih := monoChk_pairwise hrest
    refine List.Pairwise.cons ?_ ih
    intro c hc
    rcases List.mem_cons.mp hc with rfl | hc2
    · exact hab
    · exact le_trans hab (List.rel_of_pairwise_cons ih hc2)

/-- Soundness of `seedChk`: when the walk accepts, every uniform-seeding
event in the trace sees its owning program as the active one. -/
theorem seedChk_sound :
    ∀ (tr : List Ev) (a : Option ProgId), seedChk a tr = true →
      ∀ (i : Fin tr.length) (p : ProgId),
        uniformOwner (tr.get i) = some p →
          (tr.take (i : Nat)).foldl updActive a = some p := by
  intro tr
  induction tr with
  | nil =>
    intro a _ i
    exact absurd i.isLt (by simp)
  | cons e rest ih =>
    intro a hchk i p howner
    rw [seedChk, Bool.and_eq_true] at hchk
    obtain ⟨hok, hrest⟩ := hchk
    match i with
    | ⟨0, h0⟩ =>
      have he : uniformOwner e = some p := howner
      rw [he] at hok
      have hok2 : decide (a = some p) = true := by simpa using hok
      simpa using of_decide_eq_true hok2
    | ⟨Nat.succ j, hj⟩ =>
      have hj2 : j < rest.length := Nat.lt_of_succ_lt_succ hj
      exact ih (updActive a e) hrest ⟨j, hj2⟩ p howner

/-- Every pair produced by `enum` carries the blend priority of its id. -/
theorem enum_snd (prios : List Int) : ∀ x ∈ prios.enum, x.2 = prioOf prios x.1 := by
  intro x hx
  obtain ⟨i, a⟩ := x
  have h := List.mem_enum_iff_getElem?.mp hx
  simp [prioOf, List.getD, h]

/-- Pairs of the sorted table still carry the blend priority of their id. -/
theorem sortedPairs_snd (prios : List Int) :
    ∀ x ∈ (prios.enum).insertionSort prioGE, x.2 = prioOf prios x.1 := by
  intro x hx
  exact enum_snd prios x ((List.perm_insertionSort prioGE prios.enum).mem_iff.mp hx)

/-- The priority ordering is a permutation of the loaded id range. -/
theorem tpl_perm (prios : List Int) :
    (terrain_priority_list prios).Perm (List.range prios.length) := by
  have h1 := (List.perm_insertionSort prioGE prios.enum).map Prod.fst
  rwa [List.enum_map_fst] at h1

/-- The sorted pair table is pairwise descending in priority. -/
theorem tpl_sorted (prios : List Int) :
    ((prios.enum).insertionSort prioGE).Sorted prioGE :=
  List.sorted_insertionSort prioGE prios.enum

/-- An id of strictly greater blend priority sits strictly earlier in the
priority ordering. -/
theorem tpl_strict (prios : List Int) :
    ∀ i j : Fin (terrain_priority_list prios).length,
      prioOf prios ((terrain_priority_list prios).get j) <
        prioOf prios ((terrain_priority_list prios).get i) → (i : Nat) < (j : Nat) := by
  intro i j hlt
  by_contra hle
  push_neg at hle
  set S := (prios.enum).insertionSort prioGE with hS
  have hlen : (terrain_priority_list prios).length = S.length := by
    simp [terrain_priority_list, hS]
  have hget : ∀ k : Fin (terrain_priority_list prios).length,
      prioOf prios ((terrain_priority_list prios).get k) = (S.get (Fin.cast hlen k)).2 := by
    intro k
    have hmem : S.get (Fin.cast hlen k) ∈ S := by
      simpa using List.get_mem S (Fin.cast hlen k).1 (Fin.cast hlen k).2
    have hsnd := sortedPairs_snd prios _ hmem
    rw [hsnd]
    congr 1
    simp [terrain_priority_list, ← hS, List.get_map]
  rcases lt_or_eq_of_le hle with hlt2 | heq
  · have hrel := List.Sorted.rel_get_of_lt (tpl_sorted prios)
      (show Fin.cast hlen j < Fin.cast hlen i from hlt2)
    rw [hget i, hget j] at hlt
    exact absurd hrel (by simpa [prioGE] using not_le.mpr hlt)
  · rw [hget i, hget j] at hlt
    have hcast : Fin.cast hlen j = Fin.cast hlen i := by
      apply Fin.ext
      simpa using heq
    rw [hcast] at hlt
    exact lt_irrefl _ hlt

/-- Stability: within one priority class, the ordering keeps the original
table order of the ids. -/
theorem tpl_stable (prios : List Int) (q : Int) :
    (terrain_priority_list prios).filter (fun id => prioOf prios id == q) =
      (List.range prios.length).filter (fun id => prioOf prios id == q) := by
  set S := (prios.enum).insertionSort prioGE with hS
  set p : Nat × Int → Bool := fun pr => pr.2 == q with hp
  have hstab : S.filter p = prios.enum.filter p := by
    have hc : (prios.enum.filter p).Pairwise prioGE := by
      apply List.pairwise_of_forall_mem_list
      intro a ha b hb
      have ha2 : a.2 = q := by simpa [hp] using (List.mem_filter.mp ha).2
      have hb2 : b.2 = q := by simpa [hp] using (List.mem_filter.mp hb).2
      simp [prioGE, ha2, hb2]
    have h1 : List.Sublist (prios.enum.filter p) S :=
      List.sublist_insertionSort hc (List.filter_sublist _)
    have h2 : List.Sublist ((prios.enum.filter p).filter p) (S.filter p) := h1.filter p
    rw [List.filter_filter] at h2
    have h2' : List.Sublist (prios.enum.filter p) (S.filter p) := by
      simpa using h2
    have hlen : (prios.enum.filter p).length = (S.filter p).length :=
      (((List.perm_insertionSort prioGE prios.enum).filter p).length_eq).symm
    exact (h2'.eq_of_length hlen).symm
  have hcong : ∀ (l : List (Nat × Int)), (∀ x ∈ l, x.2 = prioOf prios x.1) →
      l.filter (fun x => prioOf prios x.1 == q) = l.filter p := by
    intro l hl
    apply List.filter_congr
    intro x hx
    simp [hp, hl x hx]
  calc (terrain_priority_list prios).filter (fun id => prioOf prios id == q)
      = (S.map Prod.fst).filter (fun id => prioOf prios id == q) := by
        simp [terrain_priority_list, hS]
    _ = (S.filter (fun x => prioOf prios x.1 == q)).map Prod.fst := by
        rw [List.filter_map]; rfl
    _ = (S.filter p).map Prod.fst := by rw [hcong S (sortedPairs_snd prios)]
    _ = (prios.enum.filter p).map Prod.fst := by rw [hstab]
    _ = (prios.enum.filter (fun x => prioOf prios x.1 == q)).map Prod.fst := by
        rw [hcong prios.enum (enum_snd prios)]
    _ = (prios.enum.map Prod.fst).filter (fun id => prioOf prios id == q) := by
        rw [List.filter_map]; rfl
    _ = (List.range prios.length).filter (fun id => prioOf prios id == q) := by
        rw [List.enum_map_fst]

/-- Unfolding of the staging buffer for one more loaded line. -/
theorem playercolors_cons (l : player_color_line) (rest : List player_color_line) :
    playercolors (l :: rest) =
      [(l.r : ℚ) / 255, (l.g : ℚ) / 255, (l.b : ℚ) / 255, (l.a : ℚ) / 255] ++
        playercolors rest := by
  simp [playercolors]

/-- The staging buffer holds four floats per loaded line. -/
theorem playercolors_length (lines : List player_color_line) :
    (playercolors lines).length = 4 * lines.length := by
  induction lines with
  | nil => simp [playercolors]
  | cons l rest ih => simp [playercolors_cons, ih]; ring

/-- The quadruple of the `i`-th loaded line sits at buffer slots
`4*i .. 4*i+3` — placement is by position in the load order. -/
theorem playercolors_getD (lines : List player_color_line) :
    ∀ (i : Nat) (h : i < lines.length),
      (playercolors lines).getD (4 * i) 0     = ((lines.get ⟨i, h⟩).r : ℚ) / 255 ∧
      (playercolors lines).getD (4 * i + 1) 0 = ((lines.get ⟨i, h⟩).g : ℚ) / 255 ∧
      (playercolors lines).getD (4 * i + 2) 0 = ((lines.get ⟨i, h⟩).b : ℚ) / 255 ∧
      (playercolors lines).getD (4 * i + 3) 0 = ((lines.get ⟨i, h⟩).a : ℚ) / 255 := by
  induction lines with
  | nil => intro i h; simp at h
  | cons l rest ih =>
    intro i h
    match i with
    | 0 => simp [playercolors_cons]
    | Nat.succ j =>
      have hj : j < rest.length := by simpa using Nat.lt_of_succ_lt_succ h
      have harith : ∀ k : Nat, 4 * (j + 1) + k = 4 + (4 * j + k) := by intro k; ring
      have hlen4 : ([(l.r : ℚ) / 255, (l.g : ℚ) / 255, (l.b : ℚ) / 255,
          (l.a : ℚ) / 255]).length = 4 := rfl
      obtain ⟨h0, h1, h2, h3⟩ := ih j hj
      refine ⟨?_, ?_, ?_, ?_⟩ <;>
        · rw [playercolors_cons]
          first
          | (rw [show 4 * (j + 1) = 4 + 4 * j by ring,
               List.getD_append_right _ _ _ _ (by simp [hlen4])]
             simpa using h0)
          | (rw [harith 1, List.getD_append_right _ _ _ _ (by simp [hlen4])]
             simpa using h1)
          | (rw [harith 2, List.getD_append_right _ _ _ _ (by simp [hlen4])]
             simpa using h2)
          | (rw [harith 3, List.getD_append_right _ _ _ _ (by simp [hlen4])]
             simpa using h3)

/-- The staging buffer never depends on the parsed `idx` fields. -/
theorem playercolors_idx_irrelevant (lines : List player_color_line)
    (f : player_color_line → Nat) :
    playercolors (lines.map (fun l => { l with idx := f l })) = playercolors lines := by
  induction lines with
  | nil => rfl
  | cons l rest ih => simp [playercolors_cons, ih]

/-- A `set_tile` call with an in-range id succeeds and stores the id. -/
theorem set_tile_ok (t : Terrain) (ne se : Nat) (id : Int)
    (h0 : 0 ≤ id) (h1 : id < (t.terrain_type_count : Int)) :
    t.set_tile ne se id =
      (none, { t with tiles := t.tiles.set (ne * t.size + se) (some id.toNat) }) := by
  rw [Terrain.set_tile, if_neg]
  push_neg
  exact ⟨h0, h1⟩

/-- A sweep whose tile ids are all in range reduces to a pure fold on the
tile buffer. -/
theorem sweep_ok_aux (cells : List (Nat × Nat)) :
    ∀ (t : Terrain), (∀ c ∈ cells, tdata c.1 c.2 < t.terrain_type_count) →
      cells.foldlM (fun acc c =>
        match acc.set_tile c.1 c.2 (tdata c.1 c.2 : Int) with
        | (some e, _) => Except.error e
        | (none, t2) => Except.ok t2) t =
      Except.ok { t with tiles := cells.foldl (tileStep t.size) t.tiles } := by
  induction cells with
  | nil => intro t _; rfl
  | cons c cs ih =>
    intro t h
    have hc : tdata c.1 c.2 < t.terrain_type_count := h c (List.mem_cons_self c cs)
    have hset := set_tile_ok t c.1 c.2 (tdata c.1 c.2 : Int)
      (by exact_mod_cast Nat.zero_le _) (by exact_mod_cast hc)
    rw [List.foldlM, hset]
    simp only [Int.toNat_ofNat]
    have ih2 := ih { t with tiles := t.tiles.set (c.1 * t.size + c.2) (some (tdata c.1 c.2)) }
      (by intro x hx; exact h x (List.mem_cons_of_mem c hx))
    simpa [tileStep] using ih2

/-- The full sweep over the shipped matrix succeeds whenever the loaded
table covers all ids of the matrix. -/
theorem sweep_ok (ttype_count : Nat) (h : 21 ≤ ttype_count) :
    sweep (initialTerrain ttype_count) =
      Except.ok { initialTerrain ttype_count with
        tiles := (rowMajorCells 20).foldl (tileStep 20) (List.replicate 400 none) } := by
  rw [sweep]
  exact sweep_ok_aux (rowMajorCells 20) (initialTerrain ttype_count)
    (by
      intro c hc
      have hle : tdata c.1 c.2 ≤ 20 := by revert hc; revert c; decide
      exact lt_of_le_of_lt (le_trans hle (by norm_num)) h)

/-- Evaluating the sweep's fold gives the expected grid contents. -/
theorem tiles_concrete :
    (rowMajorCells 20).foldl (tileStep 20) (List.replicate 400 none) = finalTiles := by
  decide

/-- Teardown releases exactly the recorded terrain-texture count. -/
theorem countP_terrain (ttc : Nat) :
    (destroyTrace ttc).countP isTerrainTexRelease = ttc := by
  have h1 : (isTerrainTexRelease ∘ DEv.deleteTerrainTexture) = fun _ : Nat => true := rfl
  have h2 : (isTerrainTexRelease ∘ DEv.deleteBlendTexture) = fun _ : Nat => false := rfl
  simp [destroyTrace, List.countP_append, List.countP_map, List.countP_cons, h1, h2,
    isTerrainTexRelease]

/-- Teardown releases exactly `blend_mode_count` blend textures. -/
theorem countP_blend (ttc : Nat) :
    (destroyTrace ttc).countP isBlendTexRelease = blend_mode_count := by
  have h1 : (isBlendTexRelease ∘ DEv.deleteTerrainTexture) = fun _ : Nat => false := rfl
  have h2 : (isBlendTexRelease ∘ DEv.deleteBlendTexture) = fun _ : Nat => true := rfl
  simp [destroyTrace, List.countP_append, List.countP_map, List.countP_cons, h1, h2,
    isBlendTexRelease]

/-- The phase decomposition of the teardown trace. -/
theorem dphase_map (ttc : Nat) :
    (destroyTrace ttc).map dphase =
      ([0, 0, 1, 1, 1] ++ List.replicate ttc 2) ++
        (List.replicate blend_mode_count 3 ++ [4]) := by
  have h2 : (dphase ∘ DEv.deleteTerrainTexture) = fun _ : Nat => 2 := rfl
  have h3 : (dphase ∘ DEv.deleteBlendTexture) = fun _ : Nat => 3 := rfl
  simp [destroyTrace, dphase, List.map_map, h2, h3, List.map_const']

/-- Teardown phases never go backwards. -/
theorem dphase_mono (ttc : Nat) :
    ((destroyTrace ttc).map dphase).Pairwise (· ≤ ·) := by
  rw [dphase_map, List.pairwise_append]
  refine ⟨?_, ?_, ?_⟩
  · rw [List.pairwise_append]
    refine ⟨by decide, ?_, ?_⟩
    · apply List.pairwise_of_forall_mem_list
      intro a ha b hb
      rw [List.eq_of_mem_replicate ha, List.eq_of_mem_replicate hb]
    · intro a ha b hb
      rw [List.eq_of_mem_replicate hb]
      simp only [List.mem_cons, List.not_mem_nil, or_false] at ha
      rcases ha with h | h | h | h | h <;> omega
  · rw [List.pairwise_append]
    refine ⟨?_, by decide, ?_⟩
    · apply List.pairwise_of_forall_mem_list
      intro a ha b hb
      rw [List.eq_of_mem_replicate ha, List.eq_of_mem_replicate hb]
    · intro a ha b hb
      rw [List.eq_of_mem_replicate ha]
      simp only [List.mem_cons, List.not_mem_nil, or_false] at hb
      rcases hb with h | h <;> omega
  · intro a ha b hb
    have hb4 : b = 3 ∨ b = 4 := by
      rcases List.mem_append.mp hb with h2 | h2
      · exact Or.inl (List.eq_of_mem_replicate h2)
      · simp only [List.mem_cons, List.not_mem_nil, or_false] at h2
        exact Or.inr h2
    have ha2 : a ≤ 2 := by
      rcases List.mem_append.mp ha with h | h
      · simp only [List.mem_cons, List.not_mem_nil, or_false] at h
        rcases h with h | h | h | h | h <;> omega
      · rw [List.eq_of_mem_replicate h]
    rcases hb4 with h | h <;> omega

/-- Teardown starts with the two standalone textures. -/
theorem dtake (ttc : Nat) : (destroyTrace ttc).take 2 =
    [DEv.deleteTexture "gaben", DEv.deleteTexture "university"] := rfl

/-- Teardown releases the three programs in source order. -/
theorem dfilter (ttc : Nat) : (destroyTrace ttc).filter isProgramRelease =
    [DEv.deleteProgram ProgId.texture, DEv.deleteProgram ProgId.teamcolor,
     DEv.deleteProgram ProgId.alphamask] := by
  simp [destroyTrace, List.filter_append, List.filter_map, Function.comp,
    isProgramRelease]

/-- Teardown ends by freeing the priority-ordering array. -/
theorem dlast (ttc : Nat) :
    (destroyTrace ttc).getLast? = some DEv.freePriorityList := by
  have h : destroyTrace ttc =
      ([DEv.deleteTexture "gaben", DEv.deleteTexture "university",
        DEv.deleteProgram ProgId.texture, DEv.deleteProgram ProgId.teamcolor,
        DEv.deleteProgram ProgId.alphamask] ++
       (List.range ttc).map DEv.deleteTerrainTexture ++
       (List.range blend_mode_count).map DEv.deleteBlendTexture) ++
        [DEv.freePriorityList] := by
    simp [destroyTrace]
  rw [h, List.getLast?_concat]

/-! ## Claim theorems -/

/-- C1, counterexample: the conversion loop places the quadruple of the
entry `5=10,20,30,255` at the slot given by its position in the load order
(slot 0 when it is the only entry), not at the slot named by its parsed
index field 5: the one-entry buffer has only 4 floats and its slot 5 does
not hold `10/255`. -/
theorem claim_C1_counterexample :
    player_color_line.fill "5=10,20,30,255" = some ⟨5, 10, 20, 30, 255⟩ ∧
    playercolors [⟨5, 10, 20, 30, 255⟩] =
      [(10 : ℚ) / 255, (20 : ℚ) / 255, (30 : ℚ) / 255, 1] ∧
    (playercolors [⟨5, 10, 20, 30, 255⟩]).length = 4 ∧
    (playercolors [⟨5, 10, 20, 30, 255⟩]).getD (4 * 5) 0 ≠ (10 : ℚ) / 255 := by
  have hpc : playercolors [⟨5, 10, 20, 30, 255⟩] =
      [(10 : ℚ) / 255, (20 : ℚ) / 255, (30 : ℚ) / 255, 1] := by
    rw [playercolors_cons]
    norm_num [playercolors]
  have h20 : ([(10 : ℚ) / 255, (20 : ℚ) / 255, (30 : ℚ) / 255, 1]).getD (4 * 5) 0 = 0 := rfl
  refine ⟨by decide, hpc, by rw [hpc]; rfl, ?_⟩
  rw [hpc, h20]
  norm_num

/-- C1, amended: each loaded palette entry's integer channels `r,g,b,a` are
converted to the normalized quadruple `(r/255, g/255, b/255, a/255)` — an
injective, strictly order-preserving map into `[0,1]` — and the quadruple is
placed at the table slot equal to the entry's position in the load order
(the parsed index field is not used for placement); in particular the entry
`5=10,20,30,255` parses with index 5 and ends up as
`(10/255, 20/255, 30/255, 1.0)` at slot 5 exactly when it occupies
position 5 of the loaded table. -/
theorem claim_C1_amended :
    (∀ (lines : List player_color_line) (i : Nat) (h : i < lines.length),
        (playercolors lines).getD (4 * i) 0 = ((lines.get ⟨i, h⟩).r : ℚ) / 255 ∧
        (playercolors lines).getD (4 * i + 1) 0 = ((lines.get ⟨i, h⟩).g : ℚ) / 255 ∧
        (playercolors lines).getD (4 * i + 2) 0 = ((lines.get ⟨i, h⟩).b : ℚ) / 255 ∧
        (playercolors lines).getD (4 * i + 3) 0 = ((lines.get ⟨i, h⟩).a : ℚ) / 255) ∧
    StrictMono pcNormalize ∧
    Function.Injective pcNormalize ∧
    (∀ c : Fin 256, 0 ≤ pcNormalize c ∧ pcNormalize c ≤ 1) ∧
    player_color_line.fill "5=10,20,30,255" = some ⟨5, 10, 20, 30, 255⟩ ∧
    (∀ (lines : List player_color_line) (h5 : 5 < lines.length),
        lines.get ⟨5, h5⟩ = ⟨5, 10, 20, 30, 255⟩ →
          (playercolors lines).getD 20 0 = (10 : ℚ) / 255 ∧
          (playercolors lines).getD 21 0 = (20 : ℚ) / 255 ∧
          (playercolors lines).getD 22 0 = (30 : ℚ) / 255 ∧
          (playercolors lines).getD 23 0 = 1) := by
  have hsm : StrictMono pcNormalize := by
    intro a b hab
    have hc : (a.val : ℚ) < b.val := by exact_mod_cast hab
    simp only [pcNormalize, div_eq_mul_inv]
    exact mul_lt_mul_of_pos_right hc (by norm_num)
  refine ⟨playercolors_getD, hsm, hsm.injective, ?_, by decide, ?_⟩
  · intro c
    constructor
    · unfold pcNormalize
      positivity
    · unfold pcNormalize
      rw [div_le_one (by norm_num)]
      exact_mod_cast Nat.le_of_lt_succ c.2
  · intro lines h5 hget
    obtain ⟨h0, h1, h2, h3⟩ := playercolors_getD lines 5 h5
    rw [hget] at h0 h1 h2 h3
    norm_num at h0 h1 h2 h3 ⊢
    exact ⟨h0, h1, h2, h3⟩

/-- C1, amended, witness: a concrete six-entry palette whose position-5
entry is `5=10,20,30,255` gets that quadruple at slots 20–23. -/
theorem claim_C1_amended_witness :
    (playercolors [⟨0, 1, 2, 3, 4⟩, ⟨1, 1, 2, 3, 4⟩, ⟨2, 1, 2, 3, 4⟩,
        ⟨3, 1, 2, 3, 4⟩, ⟨4, 1, 2, 3, 4⟩, ⟨5, 10, 20, 30, 255⟩]).getD 20 0 =
      (10 : ℚ) / 255 ∧
    (playercolors [⟨0, 1, 2, 3, 4⟩, ⟨1, 1, 2, 3, 4⟩, ⟨2, 1, 2, 3, 4⟩,
        ⟨3, 1, 2, 3, 4⟩, ⟨4, 1, 2, 3, 4⟩, ⟨5, 10, 20, 30, 255⟩]).getD 23 0 = 1 ∧
    (playercolors [⟨0, 1, 2, 3, 4⟩, ⟨1, 1, 2, 3, 4⟩, ⟨2, 1, 2, 3, 4⟩,
        ⟨3, 1, 2, 3, 4⟩, ⟨4, 1, 2, 3, 4⟩, ⟨5, 10, 20, 30, 255⟩]).getD 0 0 =
      (1 : ℚ) / 255 := by
  have hfull := claim_C1_amended.2.2.2.2.2
    [⟨0, 1, 2, 3, 4⟩, ⟨1, 1, 2, 3, 4⟩, ⟨2, 1, 2, 3, 4⟩,
     ⟨3, 1, 2, 3, 4⟩, ⟨4, 1, 2, 3, 4⟩, ⟨5, 10, 20, 30, 255⟩]
    (by norm_num) (by rfl)
  have hpos0 := claim_C1_amended.1
    [⟨0, 1, 2, 3, 4⟩, ⟨1, 1, 2, 3, 4⟩, ⟨2, 1, 2, 3, 4⟩,
     ⟨3, 1, 2, 3, 4⟩, ⟨4, 1, 2, 3, 4⟩, ⟨5, 10, 20, 30, 255⟩]
    0 (by norm_num)
  refine ⟨hfull.1, hfull.2.2.2, ?_⟩
  have h0 := hpos0.1
  norm_num at h0
  exact h0

/-- C2 (modelled from the spec, engine `Terrain` constructor absent from the
snapshot): the priority ordering contains each loaded terrain-type id exactly
once, ids of strictly greater blend priority appear strictly earlier,
equal-priority ids keep the original table order, and zero loaded terrain
types yield an empty ordering. -/
theorem claim_C2 (prios : List Int) :
    (terrain_priority_list prios).Perm (List.range prios.length) ∧
    (∀ i j : Fin (terrain_priority_list prios).length,
        prioOf prios ((terrain_priority_list prios).get j) <
          prioOf prios ((terrain_priority_list prios).get i) →
        (i : Nat) < (j : Nat)) ∧
    (∀ q : Int,
        (terrain_priority_list prios).filter (fun id => prioOf prios id == q) =
          (List.range prios.length).filter (fun id => prioOf prios id == q)) ∧
    terrain_priority_list [] = [] :=
  ⟨tpl_perm prios, tpl_strict prios, tpl_stable prios, rfl⟩

/-- C2, witness: for the table `[3, 5, 5, 1]` the ordering is a permutation
of `range 4`, the strictly-greater-priority id 0 (priority 3) precedes id 3
(priority 1), and the priority-5 class keeps table order. -/
theorem claim_C2_witness :
    (terrain_priority_list [3, 5, 5, 1]).Perm (List.range 4) ∧
    (2 : Nat) < 3 ∧
    (terrain_priority_list [3, 5, 5, 1]).filter
        (fun id => prioOf [3, 5, 5, 1] id == (5 : Int)) =
      (List.range 4).filter (fun id => prioOf [3, 5, 5, 1] id == (5 : Int)) :=
  ⟨(claim_C2 [3, 5, 5, 1]).1,
   (claim_C2 [3, 5, 5, 1]).2.1 ⟨2, by decide⟩ ⟨3, by decide⟩ (by decide),
   (claim_C2 [3, 5, 5, 1]).2.2.1 5⟩

/-- C3: the initialization phases occur in source order — standalone
textures (0), terrain/blend metadata load (1), terrain grid build (2),
player-color load/convert (3), shader assembly (4), callback registration
(5) — each phase is nonempty, and the four frame-loop callbacks are
registered in declaration order. -/
theorem claim_C3 :
    (initTrace.map phase).Pairwise (· ≤ ·) ∧
    (∀ k : Fin 6, (k : Nat) ∈ initTrace.map phase) ∧
    initTrace.filter isRegisterCallback =
      [Ev.registerCallback "input_handler", Ev.registerCallback "on_engine_tick",
       Ev.registerCallback "draw_method", Ev.registerCallback "hud_draw_method"] :=
  ⟨monoChk_pairwise (by decide), by decide, by decide⟩

/-- C3, witness: phases 0 and 5 both occur in the trace. -/
theorem claim_C3_witness :
    (0 : Nat) ∈ initTrace.map phase ∧ (5 : Nat) ∈ initTrace.map phase :=
  ⟨claim_C3.2.1 ⟨0, by norm_num⟩, claim_C3.2.1 ⟨5, by norm_num⟩⟩

/-- C4: teardown releases the standalone textures first, then the three
shader programs in order, then exactly `terrain_texture_count` terrain
textures, then exactly `blend_mode_count` blend textures, then the priority
ordering last; the loop bounds are the recorded snapshot counters (an
argument and the module constant), not the metadata table sizes, which
`destroy` cannot even see. -/
theorem claim_C4 (terrain_texture_count : Nat) :
    (destroyTrace terrain_texture_count).countP isTerrainTexRelease =
      terrain_texture_count ∧
    (destroyTrace terrain_texture_count).countP isBlendTexRelease =
      blend_mode_count ∧
    ((destroyTrace terrain_texture_count).map dphase).Pairwise (· ≤ ·) ∧
    (destroyTrace terrain_texture_count).take 2 =
      [DEv.deleteTexture "gaben", DEv.deleteTexture "university"] ∧
    (destroyTrace terrain_texture_count).filter isProgramRelease =
      [DEv.deleteProgram ProgId.texture, DEv.deleteProgram ProgId.teamcolor,
       DEv.deleteProgram ProgId.alphamask] ∧
    (destroyTrace terrain_texture_count).getLast? = some DEv.freePriorityList :=
  ⟨countP_terrain _, countP_blend _, dphase_mono _, dtake _, dfilter _, dlast _⟩

/-- C4, witness: with a snapshot of 5 terrain textures, teardown releases
exactly 5 terrain textures and `blend_mode_count` blend textures. -/
theorem claim_C4_witness :
    (destroyTrace 5).countP isTerrainTexRelease = 5 ∧
    (destroyTrace 5).countP isBlendTexRelease = blend_mode_count :=
  ⟨(claim_C4 5).1, (claim_C4 5).2.1⟩

/-- C5: the init sweep calls `set_tile` once per cell of the fixed 20×20
matrix in row-major order (cell `k` of the call sequence is
`(k / 20, k % 20)`, no cell repeats); when the loaded table covers the
matrix ids (all ≤ 20), the sweep succeeds and afterwards cell `(ne, se)`
holds `terrain_data[ne][se]` — in particular `(0,0)` holds 7 and `(5,2)`
holds 20 — and every cell holds a valid loaded id drawn from
`{3,7,9,11,12,13,14,17,18,19,20}`. -/
theorem claim_C5 (ttype_count : Nat) (h : 21 ≤ ttype_count) :
    rowMajorCells 20 = (List.range 400).map (fun k => (k / 20, k % 20)) ∧
    (rowMajorCells 20).Nodup ∧
    sweep (initialTerrain ttype_count) =
      Except.ok (Terrain.mk 20 ttype_count finalTiles) ∧
    (finalTiles.getD (0 * 20 + 0) none = some 7 ∧ tdata 0 0 = 7) ∧
    (finalTiles.getD (5 * 20 + 2) none = some 20 ∧ tdata 5 2 = 20) ∧
    (∀ o ∈ finalTiles, ∃ v, o = some v ∧ v ∈ terrainIdSet ∧ v < ttype_count) := by
  have hcells : rowMajorCells 20 = (List.range 400).map (fun k => (k / 20, k % 20)) := by
    decide
  have hnodup : (rowMajorCells 20).Nodup := by
    rw [hcells]
    refine List.Nodup.map_on ?_ (List.nodup_range 400)
    intro x hx y hy hxy
    have h1 : x / 20 = y / 20 := congrArg Prod.fst hxy
    have h2 : x % 20 = y % 20 := congrArg Prod.snd hxy
    omega
  have hsweep := sweep_ok ttype_count h
  rw [tiles_concrete] at hsweep
  have hvalid : ∀ o ∈ finalTiles, ∃ v, o = some v ∧ v ∈ terrainIdSet ∧ v ≤ 20 := by
    decide
  refine ⟨hcells, hnodup, hsweep, by decide, by decide, ?_⟩
  intro o ho
  obtain ⟨v, hv1, hv2, hv3⟩ := hvalid o ho
  exact ⟨v, hv1, hv2, lt_of_le_of_lt hv3 (lt_of_lt_of_le (by norm_num) h)⟩

/-- C5, witness: with 21 loaded terrain types the sweep succeeds and the
call sequence visits each cell once. -/
theorem claim_C5_witness :
    sweep (initialTerrain 21) =
      Except.ok (Terrain.mk 20 21 finalTiles) ∧
    (rowMajorCells 20).Nodup :=
  ⟨(claim_C5 21 (le_refl 21)).2.2.1, (claim_C5 21 (le_refl 21)).2.1⟩

/-- C6 (modelled from the spec, engine `Terrain::set_tile` absent from the
snapshot): `set_tile` with an id outside `[0, terrain_type_count)` fails
with `InvalidTerrainId` and returns the grid unchanged, for every position
and every out-of-range id. -/
theorem claim_C6 (t : Terrain) (ne se : Nat) (id : Int)
    (h : id < 0 ∨ (t.terrain_type_count : Int) ≤ id) :
    t.set_tile ne se id = (some TerrainError.InvalidTerrainId, t) := by
  rw [Terrain.set_tile, if_pos h]

/-- C6, witness: a 2×2 grid with 5 loaded types rejects id 7 and id -3,
both times leaving the tiles untouched. -/
theorem claim_C6_witness :
    Terrain.set_tile (Terrain.mk 2 5 [none, none, none, none]) 0 1 7 =
      (some TerrainError.InvalidTerrainId, Terrain.mk 2 5 [none, none, none, none]) ∧
    Terrain.set_tile (Terrain.mk 2 5 [none, none, none, none]) 1 0 (-3) =
      (some TerrainError.InvalidTerrainId, Terrain.mk 2 5 [none, none, none, none]) :=
  ⟨claim_C6 _ 0 1 7 (Or.inr (by norm_num)),
   claim_C6 _ 1 0 (-3) (Or.inl (by norm_num))⟩

/-- C7: each of the five shader objects is deleted exactly once, every
deletion happens only after every program referencing that shader has been
linked, all deletions precede the callback-registration phase, and the
plain-texture vertex shader is indeed referenced by both the plain-texture
and the team-color programs. -/
theorem claim_C7 :
    (∀ s : ShaderId, initTrace.count (Ev.deleteShader s) = 1) ∧
    (∀ p : ProgId, initTrace.count (Ev.linkProgram p) = 1) ∧
    (∀ (s : ShaderId) (p : ProgId), references initTrace p s →
        List.indexOf (Ev.linkProgram p) initTrace <
          List.indexOf (Ev.deleteShader s) initTrace) ∧
    (∀ s : ShaderId,
        List.indexOf (Ev.deleteShader s) initTrace <
          List.indexOf (Ev.registerCallback "input_handler") initTrace) ∧
    references initTrace ProgId.texture ShaderId.plaintexture_vert ∧
    references initTrace ProgId.teamcolor ShaderId.plaintexture_vert :=
  ⟨by decide, by decide, by decide, by decide, by decide, by decide⟩

/-- C7, witness: the team-color program links before the shared
plain-texture vertex shader is deleted. -/
theorem claim_C7_witness :
    List.indexOf (Ev.linkProgram ProgId.teamcolor) initTrace <
      List.indexOf (Ev.deleteShader ShaderId.plaintexture_vert) initTrace :=
  claim_C7.2.2.1 ShaderId.plaintexture_vert ProgId.teamcolor (by decide)

/-- C8: every constant-uniform seeding event in the init trace executes
while its owning program is the active one (inside that program's
use/stopusing bracket), and the seeded constants are exactly: sampler unit 0
for the plain-texture program, sampler unit 0, the alpha marker 254/255 and
the 64-entry vec4 player-color table for the team-color program, and
sampler units 0 and 1 for the alpha-mask program; the table is uploaded
exactly once. -/
theorem claim_C8 :
    (∀ (i : Fin initTrace.length) (p : ProgId),
        uniformOwner (initTrace.get i) = some p →
          activeProg (initTrace.take (i : Nat)) = some p) ∧
    initTrace.filter (fun e => (uniformOwner e).isSome) =
      [Ev.uniform1i ProgId.texture "texture" 0,
       Ev.uniform1i ProgId.teamcolor "texture" 0,
       Ev.uniform1f ProgId.teamcolor "alpha_marker" 254 255,
       Ev.uniform4fv ProgId.teamcolor "player_color" 64,
       Ev.uniform1i ProgId.alphamask "base_texture" 0,
       Ev.uniform1i ProgId.alphamask "mask_texture" 1] ∧
    floatLit 254 255 = 254 / 255 ∧
    initTrace.count (Ev.uniform4fv ProgId.teamcolor "player_color" 64) = 1 := by
  refine ⟨?_, by decide, by norm_num [floatLit], by decide⟩
  intro i p hp
  exact seedChk_sound initTrace none (by decide) i p hp

/-- C8, witness: the plain-texture sampler seeding at trace position 422
runs while the plain-texture program is active. -/
theorem claim_C8_witness :
    activeProg (initTrace.take 422) = some ProgId.texture :=
  claim_C8.1 ⟨422, by decide⟩ ProgId.texture (by decide)

/-- C9, counterexample: the load/convert path accepts the entry
`100=1,2,3,4` whose index 100 is ≥ 64 — no index-range check exists, so an
out-of-range index is not a detected fatal error. -/
theorem claim_C9_counterexample :
    read_player_colors ["100=1,2,3,4"] = some [⟨100, 1, 2, 3, 4⟩] ∧
    load_convert_player_colors ["100=1,2,3,4"] ≠ none ∧
    ¬ (100 : Nat) < 64 := by
  have h : read_player_colors ["100=1,2,3,4"] = some [⟨100, 1, 2, 3, 4⟩] := by decide
  refine ⟨h, ?_, by decide⟩
  simp [load_convert_player_colors, h]

/-- C9, amended: the load/convert path performs no validation of the parsed
index: the staging buffer is invariant under arbitrary rewrites of every
entry's index field, any successfully parsed palette converts, and the
concrete entry `100=1,2,3,4` (index 100 ≥ 64) is accepted silently. -/
theorem claim_C9_amended :
    (∀ (lines : List player_color_line) (f : player_color_line → Nat),
        playercolors (lines.map (fun l => { l with idx := f l })) =
          playercolors lines) ∧
    (∀ (ls : List String) (lines : List player_color_line),
        read_player_colors ls = some lines →
          load_convert_player_colors ls = some (playercolors lines)) ∧
    read_player_colors ["100=1,2,3,4"] = some [⟨100, 1, 2, 3, 4⟩] ∧
    (64 : Nat) ≤ 100 := by
  refine ⟨playercolors_idx_irrelevant, ?_, by decide, by norm_num⟩
  intro ls lines hread
  simp [load_convert_player_colors, hread]

/-- C9, amended, witness: the buffer of the index-100 entry is unchanged
when its index is rewritten to 0, and its load/convert succeeds. -/
theorem claim_C9_amended_witness :
    playercolors (([⟨100, 1, 2, 3, 4⟩] : List player_color_line).map
        (fun l => { l with idx := 0 })) =
      playercolors [⟨100, 1, 2, 3, 4⟩] ∧
    load_convert_player_colors ["100=1,2,3,4"] =
      some (playercolors [⟨100, 1, 2, 3, 4⟩]) :=
  ⟨claim_C9_amended.1 [⟨100, 1, 2, 3, 4⟩] (fun _ => 0),
   claim_C9_amended.2.1 ["100=1,2,3,4"] [⟨100, 1, 2, 3, 4⟩] (by decide)⟩

/-- C10: the staging buffer holds exactly `4 * pcolor_count` floats while
the upload always reads `64 * 4` floats (`glUniform4fv(loc, 64, buf)` —
the constant count 64 appears in the trace and is issued once), so whenever
fewer than 64 entries are loaded the upload reads past the buffer's end. -/
theorem claim_C10 (lines : List player_color_line)
    (h : lines.length < pcUploadVec4Count) :
    (playercolors lines).length = pcBufferLen lines.length ∧
    pcBufferLen lines.length < pcUploadFloatCount ∧
    (∃ j : Nat, j < pcUploadFloatCount ∧ pcBufferLen lines.length ≤ j) ∧
    initTrace.count (Ev.uniform4fv ProgId.teamcolor "player_color" 64) = 1 ∧
    pcUploadVec4Count = 64 := by
  have hb : pcBufferLen lines.length < pcUploadFloatCount := by
    have hlt : lines.length < 64 := h
    simp only [pcBufferLen, pcUploadFloatCount, pcUploadVec4Count]
    omega
  refine ⟨?_, hb, ⟨pcBufferLen lines.length, hb, le_refl _⟩, by decide, rfl⟩
  simp [playercolors_length, pcBufferLen, Nat.mul_comm]

/-- C10, witness: a three-entry palette yields a 12-float buffer, strictly
shorter than the 256 floats the upload reads. -/
theorem claim_C10_witness :
    (playercolors [⟨0, 1, 2, 3, 4⟩, ⟨1, 1, 2, 3, 4⟩, ⟨2, 1, 2, 3, 4⟩]).length =
      pcBufferLen 3 ∧
    pcBufferLen 3 < pcUploadFloatCount :=
  ⟨(claim_C10 [⟨0, 1, 2, 3, 4⟩, ⟨1, 1, 2, 3, 4⟩, ⟨2, 1, 2, 3, 4⟩] (by decide)).1,
   (claim_C10 [⟨0, 1, 2, 3, 4⟩, ⟨1, 1, 2, 3, 4⟩, ⟨2, 1, 2, 3, 4⟩] (by decide)).2.1⟩

end Openage
